import Mathlib

/-!
# Verification of the `private-session` Spicetify extension

A shallow embedding of `src/private-session/src/private-session.js`.

The source is a single browser script manipulating the host application's
DOM.  We embed it as follows:

* machine state (the script's module-level `let` variables together with
  the single `localStorage` key it uses, and the open/closed state of the
  profile dropdown it toggles) becomes the structure `PSState`;
* the DOM contents seen by the retry loops become oracles: an
  attempt-indexed predicate for the generic locator `getElement`, and a
  per-call snapshot `Env` for the composite `startPrivateSession`;
* DOM reads and clicks are counted in `DomEffects` so that "performs no
  DOM interaction" is the statement that a call returns `⟨0, 0⟩`;
* the `async`/`await` interleaving semantics of concurrent callers of
  `startPrivateSession` is a small-step transition relation `Step` on
  `Sys`, with one program point per synchronous region of the source;
* the menu-item injector `ensurePersistentMenuItem` operates on a list
  model `InjMenuItem` of the `<li>` entries of the dropdown menu.

Class names, inline styles, log output and the injector's asynchronous
retry timer (`findPrivateSessionItem`'s `setTimeout` rescheduling) are not
modelled; all values the claims speak about are.
-/

/-! ## Configuration constants (source lines 1-23) -/

def PS_PRIVATE_SESSION_LABEL_TEXT : String := "Private session"

def PS_PERSISTENT_SESSION_LABEL_TEXT : String := "Persistent Privacy"

def PS_RETRY_LIMIT : Nat := 3

def PS_INDICATOR_RETRIES : Nat := 2

def PS_DELAY_MS : Nat := 100

def MENU_OPERATION_COOLDOWN : Nat := 500

def PS_PERSISTENT_ITEM_ID : String := "ps-persistent-item"

/-! ## Machine state

`PSState` collects the script's module-level mutable variables
(source lines 26-32) plus the two pieces of external mutable state the
modelled operations read and write: the `localStorage` slot under the key
`"private-session-persistent-mode"` (`storage`, `none` when the key was
never set) and whether the profile dropdown menu is currently open in the
DOM (`menuOpen`).  `visibilityListenerCount` counts how many
`visibilitychange` listeners are currently attached to the document;
`focusListenerInstalled` models whether `focusEventListener` is non-null.
The variables `menuItemAdded`, `pendingFocusCheck` and `menuCloseTimer`
are internal to the injector and the focus handler and are not needed by
the modelled operations. -/

structure PSState where
  persistentModeEnabled : Bool
  focusListenerInstalled : Bool
  visibilityListenerCount : Nat
  menuOperationInProgress : Bool
  lastMenuOperationTime : Nat
  storage : Option String
  menuOpen : Bool
deriving DecidableEq, Repr

/-- The script's initial state (source lines 26-32; `localStorage` key
absent, no dropdown open). -/
def initialPSState : PSState :=
  { persistentModeEnabled := false
    focusListenerInstalled := false
    visibilityListenerCount := 0
    menuOperationInProgress := false
    lastMenuOperationTime := 0
    storage := none
    menuOpen := false }

/-- JavaScript's `Boolean.prototype.toString`. -/
def boolToString (b : Bool) : String :=
  if b then "true" else "false"

/-! ## Persistence store (source lines 154-166) -/

/-- `savePersistentModeSetting` (lines 154-157):
`localStorage.setItem("private-session-persistent-mode",
persistentModeEnabled.toString())`. -/
def savePersistentModeSetting (s : PSState) : PSState :=
  { s with storage := some (boolToString s.persistentModeEnabled) }

/-- `loadPersistentModeSetting` (lines 162-166):
`persistentModeEnabled = localStorage.getItem(...) === "true"`;
`getItem` yields `null` (here `none`) when the key was never set, and
`null === "true"` is `false`. -/
def loadPersistentModeSetting (s : PSState) : PSState :=
  { s with persistentModeEnabled :=
      match s.storage with
      | some v => v == "true"
      | none => false }

/-! ## Persistent-mode controller (source lines 324-374, 448-474)

`enablePersistentMode` installs the focus listener only when
`focusEventListener` is null, and in the same branch also attaches a new
anonymous `visibilitychange` listener to the document (lines 365-370).
`disablePersistentMode` removes only the `focus` listener (lines 452-456);
no `removeEventListener("visibilitychange", ...)` exists anywhere in the
source, so the count of attached `visibilitychange` listeners only ever
grows. -/

/-- `enablePersistentMode` (lines 324-374).  The body of the focus handler
itself runs later, on focus events, and is not part of this state
transition. -/
def enablePersistentMode (s : PSState) : PSState :=
  let s1 := savePersistentModeSetting { s with persistentModeEnabled := true }
  if !s1.focusListenerInstalled then
    { s1 with focusListenerInstalled := true
              visibilityListenerCount := s1.visibilityListenerCount + 1 }
  else s1

/-- `disablePersistentMode` (lines 448-459). -/
def disablePersistentMode (s : PSState) : PSState :=
  let s1 := savePersistentModeSetting { s with persistentModeEnabled := false }
  if s1.focusListenerInstalled then
    { s1 with focusListenerInstalled := false }
  else s1

/-- `togglePersistentMode` (lines 464-474): flip the flag, persist, then
dispatch on the new flag value. -/
def togglePersistentMode (s : PSState) : PSState :=
  let s1 := savePersistentModeSetting
    { s with persistentModeEnabled := !s.persistentModeEnabled }
  if s1.persistentModeEnabled then enablePersistentMode s1
  else disablePersistentMode s1

/-! ## DOM effects

Counts of `querySelector`/`querySelectorAll` evaluations (one per retry
attempt; the bounded burst of selector evaluations inside a single attempt
is abstracted as one query) and of `.click()` calls performed by one
invocation.  "No DOM interaction" is the statement that an invocation's
effects are `⟨0, 0⟩`. -/

structure DomEffects where
  queries : Nat
  clicks : Nat
deriving DecidableEq, Repr

def DomEffects.add (a b : DomEffects) : DomEffects :=
  ⟨a.queries + b.queries, a.clicks + b.clicks⟩

instance : Add DomEffects := ⟨DomEffects.add⟩

/-! ## DOM locator (source lines 40-60)

The document contents during one locator call are an oracle
`present : Nat → Bool` giving, for each 0-based retry attempt, whether the
selector matches at that attempt.  The result of `getElement` is the
attempt index at which the element was found (standing for the element
itself), together with the number of attempts (queries) made and the
number of `PS_DELAY_MS` delays awaited. -/

def getElementAux (present : Nat → Bool) (retryCount : Nat) :
    Nat → Option Nat × Nat × Nat
  | 0 => (none, 0, 0)
  | remaining + 1 =>
    if present retryCount then (some retryCount, 1, 0)
    else
      let (r, a, d) := getElementAux present (retryCount + 1) remaining
      (r, a + 1, d + 1)

/-- `getElement` (lines 40-60): up to `PS_RETRY_LIMIT` attempts; each
failed attempt awaits a `PS_DELAY_MS` delay (including the last one,
before returning `null`). -/
def getElement (present : Nat → Bool) : Option Nat × Nat × Nat :=
  getElementAux present 0 PS_RETRY_LIMIT

/-! ## Menu controller (source lines 68-107, 113-125, 172-177, 182-262)

A menu item button is modelled by the one bit the controller reads from
it: whether `button.querySelector("svg")` (the `MENU_ITEM_CHECKED`
selector) matches, i.e. whether the item shows the checked marker. -/

structure MenuButton where
  hasCheckedMarker : Bool
deriving DecidableEq, Repr

/-- `isMenuItemSelected` (lines 68-70):
`!!button.querySelector(PS_CSS_SELECTORS.MENU_ITEM_CHECKED)`. -/
def isMenuItemSelected (button : MenuButton) : Bool :=
  button.hasCheckedMarker

/-- `findMenuItemButton` (lines 77-89) with
`searchForMenuItemButton` (lines 91-102) abstracted as an attempt-indexed
oracle giving the label-matching button found at each attempt, if any.
Returns the button and the number of attempts made. -/
def findMenuItemButtonAux (search : Nat → Option MenuButton) (retryCount : Nat) :
    Nat → Option MenuButton × Nat
  | 0 => (none, 0)
  | remaining + 1 =>
    match search retryCount with
    | some b => (some b, 1)
    | none =>
      let (r, q) := findMenuItemButtonAux search (retryCount + 1) remaining
      (r, q + 1)

def findMenuItemButton (search : Nat → Option MenuButton) : Option MenuButton × Nat :=
  findMenuItemButtonAux search 0 PS_RETRY_LIMIT

/-- `findPrivateSessionIndicator` (lines 113-125), with the
container-and-button scan `searchForPrivateSessionIndicator`
(lines 127-149) abstracted as an attempt-indexed oracle; uses
`PS_INDICATOR_RETRIES` attempts.  Returns whether an indicator was found
and the number of attempts made. -/
def findPrivateSessionIndicatorAux (search : Nat → Bool) (retryCount : Nat) :
    Nat → Bool × Nat
  | 0 => (false, 0)
  | remaining + 1 =>
    if search retryCount then (true, 1)
    else
      let (r, q) := findPrivateSessionIndicatorAux search (retryCount + 1) remaining
      (r, q + 1)

/-- `isPrivateSessionActive` (lines 172-177): truthiness of the found
indicator. -/
def isPrivateSessionActive (search : Nat → Bool) : Bool × Nat :=
  findPrivateSessionIndicatorAux search 0 PS_INDICATOR_RETRIES

/-- `activatePrivateSessionMenuItem` (lines 247-262): locate the item; if
absent, throw the `"Private session menu item not found"` error; click it
only when the checked marker is absent (the extra query is the
`isMenuItemSelected` check). -/
def activatePrivateSessionMenuItem (search : Nat → Option MenuButton) :
    Except String Bool × DomEffects :=
  match findMenuItemButton search with
  | (none, q) =>
    (Except.error (PS_PRIVATE_SESSION_LABEL_TEXT ++ " menu item not found"), ⟨q, 0⟩)
  | (some b, q) =>
    if !isMenuItemSelected b then (Except.ok true, ⟨q + 1, 1⟩)
    else (Except.ok true, ⟨q + 1, 0⟩)

/-! ## Composite start operation (source lines 182-319)

`Env` is the DOM snapshot one composite call runs against, held fixed for
the duration of the call: whether the private-session indicator is
rendered, whether the account-menu trigger button exists, and the result
of the label search for the `"Private session"` menu item once the menu is
open.  Clicking the trigger toggles the dropdown's open state. -/

structure Env where
  indicatorPresent : Bool
  menuButtonPresent : Bool
  menuItemSearch : Option MenuButton
deriving DecidableEq, Repr

/-- `ensureMenuClosed` (lines 182-207): query for an open dropdown; if one
is open and the trigger button is found, click it to close (the delayed
re-verification at line 197 finds the menu closed and is folded into the
call: one re-check query, no second click).  If the trigger is not found,
the dropdown stays open. -/
def ensureMenuClosed (menuButtonPresent : Bool) (s : PSState) : PSState × DomEffects :=
  if s.menuOpen then
    if menuButtonPresent then ({ s with menuOpen := false }, ⟨3, 1⟩)
    else (s, ⟨2, 0⟩)
  else (s, ⟨1, 0⟩)

/-- `canPerformMenuOperation` (lines 212-225) on its three inputs:
the in-progress flag, `lastMenuOperationTime` and `Date.now()`. -/
def canPerformFlags (menuOperationInProgress : Bool)
    (lastMenuOperationTime now : Nat) : Bool :=
  if menuOperationInProgress then false
  else if now - lastMenuOperationTime < MENU_OPERATION_COOLDOWN then false
  else true

def canPerformMenuOperation (s : PSState) (now : Nat) : Bool :=
  canPerformFlags s.menuOperationInProgress s.lastMenuOperationTime now

/-- `openMainMenu` (lines 230-242): force-close, locate the trigger with
`getElement` (throwing `"Failed to find menu button"` on exhaustion), then
click it, which toggles the dropdown open. -/
def openMainMenu (env : Env) (s : PSState) :
    Except String Unit × PSState × DomEffects :=
  let (s1, eff1) := ensureMenuClosed env.menuButtonPresent s
  match getElement (fun _ => env.menuButtonPresent) with
  | (none, a, _) => (Except.error "Failed to find menu button", s1, eff1 + ⟨a, 0⟩)
  | (some _, a, _) =>
    (Except.ok (), { s1 with menuOpen := !s1.menuOpen }, eff1 + ⟨a, 1⟩)

/-- `cleanupMenuOperation` (lines 267-270). -/
def cleanupMenuOperation (env : Env) (s : PSState) : PSState × DomEffects :=
  let (s1, eff) := ensureMenuClosed env.menuButtonPresent s
  ({ s1 with menuOperationInProgress := false }, eff)

/-- `prepareMenuOperation` (lines 316-319). -/
def prepareMenuOperation (s : PSState) (now : Nat) : PSState :=
  { s with menuOperationInProgress := true, lastMenuOperationTime := now }

/-- `handlePrivateSessionActivation` (lines 300-314).  Errors from
`openMainMenu` and `activatePrivateSessionMenuItem` propagate to
`startPrivateSession`'s `catch`, carrying the state and effects
accumulated so far. -/
def handlePrivateSessionActivation (env : Env) (s : PSState) (now : Nat)
    (forceOpen : Bool) : Except String Bool × PSState × DomEffects :=
  if !forceOpen then (Except.ok false, s, ⟨0, 0⟩)
  else
    let s1 := prepareMenuOperation s now
    match openMainMenu env s1 with
    | (Except.error e, s2, eff) => (Except.error e, s2, eff)
    | (Except.ok _, s2, eff) =>
      match activatePrivateSessionMenuItem (fun _ => env.menuItemSearch) with
      | (Except.error e, eff2) => (Except.error e, s2, eff + eff2)
      | (Except.ok _, eff2) =>
        let (s3, eff3) := cleanupMenuOperation env s2
        (Except.ok true, s3, eff + eff2 + eff3)

/-- The outcome of one `startPrivateSession` call: its boolean return
value, the machine state when it returns, and the DOM interaction it
performed. -/
structure StartOutcome where
  result : Bool
  state : PSState
  effects : DomEffects
deriving DecidableEq, Repr

/-- `startPrivateSession` (lines 277-298).  The `try`/`catch` makes the
function total: every thrown error is converted into
`cleanupMenuOperation` followed by the return value `false`, so no
exception reaches the caller.  In this big-step model the clock `now`
stands still for the duration of the call. -/
def startPrivateSession (env : Env) (s : PSState) (now : Nat)
    (forceOpen : Bool) : StartOutcome :=
  if !canPerformMenuOperation s now then ⟨false, s, ⟨0, 0⟩⟩
  else
    let (isActive, q) := isPrivateSessionActive (fun _ => env.indicatorPresent)
    if isActive then ⟨true, s, ⟨q, 0⟩⟩
    else
      match handlePrivateSessionActivation env s now forceOpen with
      | (Except.ok b, s2, eff) => ⟨b, s2, (⟨q, 0⟩ : DomEffects) + eff⟩
      | (Except.error _, s2, eff) =>
        let (s3, eff2) := cleanupMenuOperation env s2
        ⟨false, s3, (⟨q, 0⟩ : DomEffects) + eff + eff2⟩

/-! ## Interleaving model of concurrent `startPrivateSession` callers

JavaScript is single-threaded: control can change hands only at `await`
points and between event-loop turns.  Each caller of
`startPrivateSession(true)` is a process whose program counter ranges over
the synchronous regions of the source:

* `idle` — the call has been made but the synchronous prefix (the
  `canPerformMenuOperation` guard, lines 280-282) has not run yet;
* `checking` — the guard passed and the process is suspended in
  `await isPrivateSessionActive()` (line 285); note
  `prepareMenuOperation` has *not* run yet;
* `inFlight` — the region between `prepareMenuOperation` (line 306) and
  `cleanupMenuOperation` (line 312 on success, line 295 in the `catch`):
  the composite open-menu/activate/close sequence, containing several
  `await`s;
* `done b` — the call returned `b`.

The shared variables are `menuOperationInProgress` and
`lastMenuOperationTime` together with the clock.  One `Step` is one
synchronous region executing (or time passing); the DOM outcomes
(indicator found or not, errors) appear as the nondeterministic choice
between `alreadyActive`, `notForced`, `prepare`, and the `finish` result
bit. -/

inductive Phase where
  | idle
  | checking
  | inFlight
  | done (result : Bool)
deriving DecidableEq, Repr

structure Sys where
  inProgress : Bool
  lastOpTime : Nat
  clock : Nat
  procs : List Phase
deriving DecidableEq, Repr

/-- One interleaving step: either time passes, or the process `i` runs its
next synchronous region of `startPrivateSession` (lines 277-319). -/
inductive Step : Sys → Sys → Prop where
  | tick (s : Sys) (d : Nat) :
      Step s { s with clock := s.clock + d }
  | guardPass (s : Sys) (i : Nat) (h : s.procs[i]? = some Phase.idle)
      (hc : canPerformFlags s.inProgress s.lastOpTime s.clock = true) :
      Step s { s with procs := s.procs.set i Phase.checking }
  | guardFail (s : Sys) (i : Nat) (h : s.procs[i]? = some Phase.idle)
      (hc : canPerformFlags s.inProgress s.lastOpTime s.clock = false) :
      Step s { s with procs := s.procs.set i (Phase.done false) }
  | alreadyActive (s : Sys) (i : Nat) (h : s.procs[i]? = some Phase.checking) :
      Step s { s with procs := s.procs.set i (Phase.done true) }
  | notForced (s : Sys) (i : Nat) (h : s.procs[i]? = some Phase.checking) :
      Step s { s with procs := s.procs.set i (Phase.done false) }
  | prepare (s : Sys) (i : Nat) (h : s.procs[i]? = some Phase.checking) :
      Step s { s with inProgress := true, lastOpTime := s.clock,
                      procs := s.procs.set i Phase.inFlight }
  | finish (s : Sys) (i : Nat) (b : Bool) (h : s.procs[i]? = some Phase.inFlight) :
      Step s { s with inProgress := false, procs := s.procs.set i (Phase.done b) }

def Reachable (init s : Sys) : Prop :=
  Relation.ReflTransGen Step init s

/-- Two composite menu operations are in flight at the same time. -/
def TwoInFlight (s : Sys) : Prop :=
  ∃ i j : Nat, i ≠ j ∧ s.procs[i]? = some Phase.inFlight
    ∧ s.procs[j]? = some Phase.inFlight

/-- The claimed ordering guarantee for a given initial configuration: no
interleaving ever has two composite menu operations in flight at once. -/
def NoOverlap (init : Sys) : Prop :=
  ∀ s, Reachable init s → ¬ TwoInFlight s

/-! ## Menu-item injector (source lines 482-615)

The dropdown's `<ul>` is a list of `<li>` entries.  Each entry carries the
pieces the injector reads or writes: its `id` attribute, the text of its
`<span>` label, the tag name of the clickable child element wrapping that
span (`"button"` for the host application's native items; the injected
item's is a `"div"`, built by `createMenuButton` at line 545), and the
state shown by its `.sidebar-checkbox` toggle visual (`none` when the
item has no toggle). -/

structure InjMenuItem where
  id : Option String
  label : String
  childTag : String
  toggle : Option Bool
deriving DecidableEq, Repr

/-- `findItemByText` (lines 482-490): scan the list's spans for the first
whose text equals `text` and return `span.closest("button")` — which is
null when the matching span's clickable ancestor is not a `<button>`
element (the source returns at the first matching span either way). -/
def findItemByText (menuList : List InjMenuItem) (text : String) :
    Option InjMenuItem :=
  match menuList.find? (fun item => item.label == text) with
  | some item => if item.childTag == "button" then some item else none
  | none => none

/-- `updatePersistentMenuItemState` (lines 409-443) applied to a target
item: `targetItem.querySelector("button")` matches only a `<button>`
element, so when the item's clickable child is not a `<button>` the
function returns without changing anything; on the `<button>` path
`ensureToggleContainer` creates the toggle container when missing and the
toggle visual is rewritten to show `flag`. -/
def updatePersistentMenuItemState (flag : Bool) (item : InjMenuItem) :
    InjMenuItem :=
  if item.childTag == "button" then { item with toggle := some flag }
  else item

/-- `createPersistentMenuItem` with `createMenuButton` and
`createToggleElement` (lines 533-570): a fresh `<li>` with the fixed id,
the `"Persistent Privacy"` label, a `<div>` as clickable child, and a
toggle visual showing the current flag. -/
def createPersistentMenuItem (flag : Bool) : InjMenuItem :=
  { id := some PS_PERSISTENT_ITEM_ID
    label := PS_PERSISTENT_SESSION_LABEL_TEXT
    childTag := "div"
    toggle := some flag }

/-- `privateSessionItem.after(menuItem)` (line 501): insert right after
the first entry satisfying `p`. -/
def insertAfterFirst (p : InjMenuItem → Bool) (newItem : InjMenuItem) :
    List InjMenuItem → List InjMenuItem
  | [] => []
  | x :: xs =>
    if p x then x :: newItem :: xs
    else x :: insertAfterFirst p newItem xs

/-- `addPersistentPrivacyItem` with `findPrivateSessionItem`
(lines 496-531): find the `<li>` of the first span reading
`"Private session"` and insert the created item right after it.  When the
span is absent the source schedules an asynchronous retry and returns
null; the synchronous result leaves the list unchanged. -/
def addPersistentPrivacyItem (flag : Bool) (menuList : List InjMenuItem) :
    List InjMenuItem :=
  if menuList.any (fun item => item.label == PS_PRIVATE_SESSION_LABEL_TEXT) then
    insertAfterFirst (fun item => item.label == PS_PRIVATE_SESSION_LABEL_TEXT)
      (createPersistentMenuItem flag) menuList
  else menuList

/-- `menuList.querySelector("#ps-persistent-item")` followed by the
in-place update: rewrite the first entry carrying the fixed id. -/
def updateFirstWithId (flag : Bool) : List InjMenuItem → List InjMenuItem
  | [] => []
  | x :: xs =>
    if x.id == some PS_PERSISTENT_ITEM_ID then
      updatePersistentMenuItemState flag x :: xs
    else x :: updateFirstWithId flag xs

/-- `ensurePersistentMenuItem` (lines 596-615): bail out unless the list
is a profile menu (has a `"Private session"` item reachable through
`findItemByText`); then update the existing injected item in place, or
add it when absent. -/
def ensurePersistentMenuItem (flag : Bool) (menuList : List InjMenuItem) :
    List InjMenuItem :=
  match findItemByText menuList PS_PRIVATE_SESSION_LABEL_TEXT with
  | none => menuList
  | some _ =>
    if menuList.any (fun item => item.id == some PS_PERSISTENT_ITEM_ID) then
      updateFirstWithId flag menuList
    else addPersistentPrivacyItem flag menuList

/-! ## Theorems: persistence and persistent-mode controller -/

/-- C3: saving `true` then loading yields `true`; saving `false` then
loading yields `false`; loading when the key was never set yields `false`;
and for every stored string, loading sets the flag to `true` iff the
stored string is exactly `"true"`. -/
theorem persistence_round_trip (s : PSState) (str : String) :
    (loadPersistentModeSetting
      (savePersistentModeSetting
        { s with persistentModeEnabled := true })).persistentModeEnabled = true
    ∧ (loadPersistentModeSetting
        (savePersistentModeSetting
          { s with persistentModeEnabled := false })).persistentModeEnabled = false
    ∧ (loadPersistentModeSetting { s with storage := none }).persistentModeEnabled = false
    ∧ ((loadPersistentModeSetting
          { s with storage := some str }).persistentModeEnabled = true ↔ str = "true") := by
  refine ⟨rfl, rfl, rfl, ?_⟩
  simp [loadPersistentModeSetting, boolToString, beq_iff_eq]

/-- C4: toggling persistent mode twice returns `persistentModeEnabled` to
its original value, and afterwards the focus listener is installed exactly
when the flag is set. -/
theorem toggle_twice_symmetric (s : PSState) :
    (togglePersistentMode (togglePersistentMode s)).persistentModeEnabled
        = s.persistentModeEnabled
    ∧ (togglePersistentMode (togglePersistentMode s)).focusListenerInstalled
        = (togglePersistentMode (togglePersistentMode s)).persistentModeEnabled := by
  rcases s with ⟨flag, listener, vis, prog, last, store, open_⟩
  cases flag <;> cases listener <;>
    simp [togglePersistentMode, enablePersistentMode, disablePersistentMode,
      savePersistentModeSetting]

/-- C9: after each completed public persistent-mode operation the stored
string equals the string form of the in-memory flag. -/
theorem storage_matches_flag_after_operations (s : PSState) :
    (enablePersistentMode s).storage
        = some (boolToString (enablePersistentMode s).persistentModeEnabled)
    ∧ (disablePersistentMode s).storage
        = some (boolToString (disablePersistentMode s).persistentModeEnabled)
    ∧ (togglePersistentMode s).storage
        = some (boolToString (togglePersistentMode s).persistentModeEnabled) := by
  rcases s with ⟨flag, listener, vis, prog, last, store, open_⟩
  cases flag <;> cases listener <;>
    simp [togglePersistentMode, enablePersistentMode, disablePersistentMode,
      savePersistentModeSetting, boolToString]

/-- C10: `disablePersistentMode` never detaches a `visibilitychange`
listener (it removes only the `focus` listener), and a disable-then-enable
cycle leaves exactly one additional `visibilitychange` listener
attached. -/
theorem visibility_listener_leak (s : PSState) :
    (disablePersistentMode s).visibilityListenerCount = s.visibilityListenerCount
    ∧ (disablePersistentMode s).focusListenerInstalled = false
    ∧ (enablePersistentMode (disablePersistentMode s)).visibilityListenerCount
        = s.visibilityListenerCount + 1 := by
  rcases s with ⟨flag, listener, vis, prog, last, store, open_⟩
  cases listener <;>
    simp [enablePersistentMode, disablePersistentMode, savePersistentModeSetting]

/-! ## Theorems: locator and menu controller -/

/-- Helper: a `startPrivateSession` call whose guard fails returns `false`
without touching state or DOM. -/
theorem startPrivateSession_guard_fail (env : Env) (s : PSState) (now : Nat)
    (forceOpen : Bool) (h : canPerformMenuOperation s now = false) :
    startPrivateSession env s now forceOpen = ⟨false, s, ⟨0, 0⟩⟩ := by
  simp [startPrivateSession, h]

/-- Helper: a `startPrivateSession true` call that passes the guard and
does not find the session already active runs `prepareMenuOperation`, so
it returns with the in-progress flag released and
`lastMenuOperationTime` stamped with the call's clock — on the success
path and on both error paths alike. -/
theorem startPrivateSession_run_stamps (env : Env) (s : PSState) (t1 : Nat)
    (hguard : canPerformMenuOperation s t1 = true)
    (hinactive : env.indicatorPresent = false) :
    (startPrivateSession env s t1 true).state.menuOperationInProgress = false
    ∧ (startPrivateSession env s t1 true).state.lastMenuOperationTime = t1 := by
  rcases env with ⟨ind, mb, mi⟩
  simp only at hinactive
  subst hinactive
  rcases mi with _ | ⟨⟨marker⟩⟩
  · cases hmo : s.menuOpen <;> cases mb <;>
      simp [startPrivateSession, hguard, isPrivateSessionActive,
        findPrivateSessionIndicatorAux, PS_INDICATOR_RETRIES,
        handlePrivateSessionActivation, prepareMenuOperation, openMainMenu,
        ensureMenuClosed, getElement, getElementAux, PS_RETRY_LIMIT,
        activatePrivateSessionMenuItem, findMenuItemButton, findMenuItemButtonAux,
        cleanupMenuOperation, hmo, isMenuItemSelected]
  · cases hmo : s.menuOpen <;> cases mb <;> cases marker <;>
      simp [startPrivateSession, hguard, isPrivateSessionActive,
        findPrivateSessionIndicatorAux, PS_INDICATOR_RETRIES,
        handlePrivateSessionActivation, prepareMenuOperation, openMainMenu,
        ensureMenuClosed, getElement, getElementAux, PS_RETRY_LIMIT,
        activatePrivateSessionMenuItem, findMenuItemButton, findMenuItemButtonAux,
        cleanupMenuOperation, hmo, isMenuItemSelected]

/-- C1: when a first `startPrivateSession` call establishes the cooldown
window (its guard passes and the session is not already active, so
`prepareMenuOperation` stamps the operation time) and a second call runs
within `MENU_OPERATION_COOLDOWN` of that stamp, the second call is a
no-op: it returns `false`, leaves the state unchanged and performs no DOM
interaction (zero queries, zero clicks). -/
theorem second_call_within_cooldown_noop (env1 env2 : Env) (s : PSState)
    (t1 t2 : Nat) (forceOpen : Bool)
    (hguard : canPerformMenuOperation s t1 = true)
    (hinactive : env1.indicatorPresent = false)
    (hcool : t2 - t1 < MENU_OPERATION_COOLDOWN) :
    startPrivateSession env2 (startPrivateSession env1 s t1 true).state t2 forceOpen
      = ⟨false, (startPrivateSession env1 s t1 true).state, ⟨0, 0⟩⟩ := by
  have h1 := startPrivateSession_run_stamps env1 s t1 hguard hinactive
  apply startPrivateSession_guard_fail
  simp [canPerformMenuOperation, canPerformFlags, h1.1, h1.2, hcool]

/-- C1 witness: concrete first call at time 1000 (session inactive, menu
button present, unchecked item found), second call at 1200. -/
theorem second_call_within_cooldown_noop_witness :
    canPerformMenuOperation initialPSState 1000 = true
    ∧ (⟨false, true, some ⟨false⟩⟩ : Env).indicatorPresent = false
    ∧ 1200 - 1000 < MENU_OPERATION_COOLDOWN
    ∧ startPrivateSession ⟨false, true, some ⟨false⟩⟩
        (startPrivateSession ⟨false, true, some ⟨false⟩⟩ initialPSState 1000 true).state
        1200 true
      = ⟨false,
          (startPrivateSession ⟨false, true, some ⟨false⟩⟩ initialPSState 1000 true).state,
          ⟨0, 0⟩⟩ :=
  ⟨by decide, rfl, by decide,
    second_call_within_cooldown_noop ⟨false, true, some ⟨false⟩⟩
      ⟨false, true, some ⟨false⟩⟩ initialPSState 1000 1200 true
      (by decide) rfl (by decide)⟩

/-- C5: whenever the composite operation throws (the menu trigger is not
found, or the `"Private session"` menu item is not found), the exception
is caught (the modelled function is total and returns a plain boolean),
the operation returns `false`, the in-progress lock is released and the
menu ends closed.  The last hypothesis is the DOM-consistency condition
that an open dropdown has its trigger button in the document (or no
dropdown was open to begin with); without the trigger nothing can close
the menu. -/
theorem start_error_caught_cleanup_runs (env : Env) (s : PSState) (now : Nat)
    (hguard : canPerformMenuOperation s now = true)
    (hinactive : env.indicatorPresent = false)
    (herr : env.menuButtonPresent = false ∨ env.menuItemSearch = none)
    (hdom : s.menuOpen = false ∨ env.menuButtonPresent = true) :
    (startPrivateSession env s now true).result = false
    ∧ (startPrivateSession env s now true).state.menuOperationInProgress = false
    ∧ (startPrivateSession env s now true).state.menuOpen = false := by
  rcases env with ⟨ind, mb, mi⟩
  simp only at hinactive herr hdom
  subst hinactive
  cases mb
  · have hmo : s.menuOpen = false := by
      rcases hdom with h | h
      · exact h
      · simp at h
    rcases mi with _ | ⟨⟨marker⟩⟩
    · simp [startPrivateSession, hguard, isPrivateSessionActive,
        findPrivateSessionIndicatorAux, PS_INDICATOR_RETRIES,
        handlePrivateSessionActivation, prepareMenuOperation, openMainMenu,
        ensureMenuClosed, getElement, getElementAux, PS_RETRY_LIMIT,
        cleanupMenuOperation, hmo]
    · cases marker <;>
        simp [startPrivateSession, hguard, isPrivateSessionActive,
          findPrivateSessionIndicatorAux, PS_INDICATOR_RETRIES,
          handlePrivateSessionActivation, prepareMenuOperation, openMainMenu,
          ensureMenuClosed, getElement, getElementAux, PS_RETRY_LIMIT,
          cleanupMenuOperation, hmo]
  · have hmi : mi = none := by
      rcases herr with h | h
      · simp at h
      · exact h
    subst hmi
    cases hmo : s.menuOpen <;>
      simp [startPrivateSession, hguard, isPrivateSessionActive,
        findPrivateSessionIndicatorAux, PS_INDICATOR_RETRIES,
        handlePrivateSessionActivation, prepareMenuOperation, openMainMenu,
        ensureMenuClosed, getElement, getElementAux, PS_RETRY_LIMIT,
        activatePrivateSessionMenuItem, findMenuItemButton, findMenuItemButtonAux,
        cleanupMenuOperation, hmo]

/-- C5 witness: the menu trigger exists but the `"Private session"` item
is never found, so the explicitly thrown not-found error is raised. -/
theorem start_error_caught_cleanup_runs_witness :
    canPerformMenuOperation initialPSState 1000 = true
    ∧ ((⟨false, true, none⟩ : Env).menuButtonPresent = false
        ∨ (⟨false, true, none⟩ : Env).menuItemSearch = none)
    ∧ ((startPrivateSession ⟨false, true, none⟩ initialPSState 1000 true).result = false
        ∧ (startPrivateSession ⟨false, true, none⟩ initialPSState
            1000 true).state.menuOperationInProgress = false
        ∧ (startPrivateSession ⟨false, true, none⟩ initialPSState
            1000 true).state.menuOpen = false) :=
  ⟨by decide, Or.inr rfl,
    start_error_caught_cleanup_runs ⟨false, true, none⟩ initialPSState 1000
      (by decide) rfl (Or.inr rfl) (Or.inl rfl)⟩

/-- C6: for a selector first present at attempt `j` within the retry
limit, `getElement` returns the element found at attempt `j`, having made
`j + 1` attempts; for a selector never present it returns `none` after
exactly `PS_RETRY_LIMIT` (3) attempts, with a `PS_DELAY_MS` delay after
each failed attempt. -/
theorem getElement_first_hit_and_exhaustion (p q : Nat → Bool) (j : Nat)
    (hj : j < PS_RETRY_LIMIT) (hpj : p j = true)
    (hmin : ∀ i, i < j → p i = false)
    (hq : ∀ i, i < PS_RETRY_LIMIT → q i = false) :
    getElement p = (some j, j + 1, j)
    ∧ getElement q = (none, PS_RETRY_LIMIT, PS_RETRY_LIMIT) := by
  constructor
  · have hj3 : j < 3 := hj
    interval_cases j
    · simp [getElement, getElementAux, PS_RETRY_LIMIT, hpj]
    · simp [getElement, getElementAux, PS_RETRY_LIMIT, hpj, hmin 0 (by omega)]
    · simp [getElement, getElementAux, PS_RETRY_LIMIT, hpj,
        hmin 0 (by omega), hmin 1 (by omega)]
  · simp [getElement, getElementAux, PS_RETRY_LIMIT,
      hq 0 (by decide), hq 1 (by decide), hq 2 (by decide)]

/-- C6 witness: a selector first matching at attempt 1, and one never
matching. -/
theorem getElement_first_hit_and_exhaustion_witness :
    (1 < PS_RETRY_LIMIT)
    ∧ getElement (fun i => i == 1) = (some 1, 2, 1)
    ∧ getElement (fun _ => false) = (none, PS_RETRY_LIMIT, PS_RETRY_LIMIT) :=
  ⟨by decide,
    (getElement_first_hit_and_exhaustion (fun i => i == 1) (fun _ => false) 1
      (by decide) (by decide) (by decide) (by decide)).1,
    (getElement_first_hit_and_exhaustion (fun i => i == 1) (fun _ => false) 1
      (by decide) (by decide) (by decide) (by decide)).2⟩

/-- C7: activation clicks the located `"Private session"` menu item
exactly when its checked marker is absent; an already-checked item is not
clicked. -/
theorem activate_clicks_iff_unchecked (search : Nat → Option MenuButton)
    (b : MenuButton) (h : (findMenuItemButton search).1 = some b) :
    (activatePrivateSessionMenuItem search).2.clicks
      = if isMenuItemSelected b then 0 else 1 := by
  rcases hfb : findMenuItemButton search with ⟨r, q⟩
  rw [hfb] at h
  simp only at h
  subst h
  cases hsel : isMenuItemSelected b <;>
    simp [activatePrivateSessionMenuItem, hfb, hsel]

/-- C7 witness: an already-checked item is located and not clicked. -/
theorem activate_clicks_iff_unchecked_witness :
    (findMenuItemButton (fun _ => some ⟨true⟩)).1 = some ⟨true⟩
    ∧ (activatePrivateSessionMenuItem (fun _ => some ⟨true⟩)).2.clicks
        = if isMenuItemSelected ⟨true⟩ then 0 else 1 :=
  ⟨by decide,
    activate_clicks_iff_unchecked (fun _ => some ⟨true⟩) ⟨true⟩ (by decide)⟩

/-! ## Theorems: interleaving of composite operations -/

/-- Counterexample to the claimed ordering guarantee: from a configuration
with two callers and the cooldown long expired, both callers can pass the
`canPerformMenuOperation` guard while suspended callers have not yet run
`prepareMenuOperation` (the guard check at line 280 and the flag
assignment at line 317 are separated by the `await` at line 285), after
which both run `prepareMenuOperation` and both composite menu operations
are in flight at the same time. -/
theorem menu_operations_can_overlap :
    ¬ NoOverlap ⟨false, 0, 1000, [Phase.idle, Phase.idle]⟩ := by
  intro h
  refine h ⟨true, 1000, 1000, [Phase.inFlight, Phase.inFlight]⟩ ?_
    ⟨0, 1, by decide, rfl, rfl⟩
  exact Relation.ReflTransGen.head
    (Step.guardPass ⟨false, 0, 1000, [Phase.idle, Phase.idle]⟩ 0 rfl (by decide))
    (Relation.ReflTransGen.head
      (Step.guardPass ⟨false, 0, 1000, [Phase.checking, Phase.idle]⟩ 1 rfl (by decide))
      (Relation.ReflTransGen.head
        (Step.prepare ⟨false, 0, 1000, [Phase.checking, Phase.checking]⟩ 0 rfl)
        (Relation.ReflTransGen.single
          (Step.prepare ⟨true, 1000, 1000, [Phase.inFlight, Phase.checking]⟩ 1 rfl))))

/-- Helper: setting a list entry to anything other than `checking` cannot
make a formerly idle slot read `checking`. -/
theorem set_keeps_not_checking (l : List Phase) (i j : Nat) (v : Phase)
    (h : l[i]? = some Phase.idle) (hv : v ≠ Phase.checking) :
    (l.set j v)[i]? ≠ some Phase.checking := by
  by_cases hij : j = i
  · subst hij
    have hlt : j < l.length := by
      by_contra hge
      rw [List.getElem?_eq_none (Nat.le_of_not_lt hge)] at h
      exact Option.noConfusion h
    rw [List.getElem?_set_eq_of_lt v hlt]
    intro hc
    exact hv (Option.some.inj hc)
  · rw [List.getElem?_set_ne hij]
    rw [h]
    intro hc
    exact Phase.noConfusion (Option.some.inj hc)

/-- C2 as amended: the in-progress flag does block every caller whose
guard check executes while the flag is set — no step taken while
`menuOperationInProgress` is `true` lets an idle caller pass the guard
(it can only be rejected with return value `false`).  Overlap is possible
only because two callers may both pass the guard before either sets the
flag, the guard check and the flag assignment being separated by an
`await`. -/
theorem inprogress_flag_blocks_guard (s s' : Sys) (i : Nat) (hstep : Step s s')
    (hflag : s.inProgress = true) (hidle : s.procs[i]? = some Phase.idle) :
    s'.procs[i]? ≠ some Phase.checking := by
  cases hstep with
  | tick d => simp [hidle]
  | guardPass j h hc => rw [hflag] at hc; simp [canPerformFlags] at hc
  | guardFail j h hc => exact set_keeps_not_checking _ _ _ _ hidle (by simp)
  | alreadyActive j h => exact set_keeps_not_checking _ _ _ _ hidle (by simp)
  | notForced j h => exact set_keeps_not_checking _ _ _ _ hidle (by simp)
  | prepare j h => exact set_keeps_not_checking _ _ _ _ hidle (by simp)
  | finish j b h => exact set_keeps_not_checking _ _ _ _ hidle (by simp)

/-- C2 amended witness: with the flag set, an idle caller's own guard
step rejects it. -/
theorem inprogress_flag_blocks_guard_witness :
    (⟨true, 0, 600, [Phase.idle]⟩ : Sys).inProgress = true
    ∧ (⟨true, 0, 600, [Phase.idle]⟩ : Sys).procs[0]? = some Phase.idle
    ∧ (⟨true, 0, 600, [Phase.done false]⟩ : Sys).procs[0]? ≠ some Phase.checking :=
  ⟨rfl, rfl,
    inprogress_flag_blocks_guard ⟨true, 0, 600, [Phase.idle]⟩
      ⟨true, 0, 600, [Phase.done false]⟩ 0
      (Step.guardFail ⟨true, 0, 600, [Phase.idle]⟩ 0 rfl rfl) rfl rfl⟩

/-! ## Theorems: menu-item injector -/

/-- C8 evaluated on a synthetic profile-menu list: the first invocation
creates exactly one item with the fixed id, inserted immediately after the
`"Private session"` entry and showing the current flag (`true`); but the
second invocation — after the flag changed to `false` — leaves the list
entirely unchanged, so the existing item's toggle visual still shows
`some true` instead of `some false`: `updatePersistentMenuItemState`
looks for a `<button>` child while the injected item's clickable child is
a `<div>`, so the claimed (and doc-commented) in-place update never
happens.  No duplicate is created. -/
theorem ensure_item_no_duplicate_but_stale_toggle :
    ensurePersistentMenuItem true [⟨none, PS_PRIVATE_SESSION_LABEL_TEXT, "button", none⟩]
      = [⟨none, PS_PRIVATE_SESSION_LABEL_TEXT, "button", none⟩,
         ⟨some PS_PERSISTENT_ITEM_ID, PS_PERSISTENT_SESSION_LABEL_TEXT, "div", some true⟩]
    ∧ ensurePersistentMenuItem false
        (ensurePersistentMenuItem true
          [⟨none, PS_PRIVATE_SESSION_LABEL_TEXT, "button", none⟩])
      = ensurePersistentMenuItem true
          [⟨none, PS_PRIVATE_SESSION_LABEL_TEXT, "button", none⟩]
    ∧ (ensurePersistentMenuItem false
        (ensurePersistentMenuItem true
          [⟨none, PS_PRIVATE_SESSION_LABEL_TEXT, "button", none⟩])).countP
        (fun item => item.id == some PS_PERSISTENT_ITEM_ID) = 1
    ∧ Option.map (fun item => item.toggle)
        ((ensurePersistentMenuItem false
          (ensurePersistentMenuItem true
            [⟨none, PS_PRIVATE_SESSION_LABEL_TEXT, "button", none⟩])).find?
          (fun item => item.id == some PS_PERSISTENT_ITEM_ID))
      = some (some true) := by
  decide
